import Mathlib

/-!
# proc_darwin.c: the Mach control-plane primitives of the native macOS backend

A shallow embedding of `acquire_mach_task`, `get_threads`, `mach_port_wait` and
`mach_send_reply` from `pkg/proc/native/proc_darwin.c`.

The kernel is the environment.  Every kernel call the C code makes is logged with
its arguments, and its outcome is read from a script supplied by the environment, so
that a theorem quantified over scripts speaks about every behaviour of the kernel.

* `kern_return_t` and `mach_msg_return_t` are C `int`s: modelled as `Int`.
* port names, task names and thread names are 32-bit unsigned: modelled as `Nat`.
* the 256-byte receive buffer is a list of 32-bit words, read at byte offsets
  computed exactly as the pointer arithmetic of the C code computes them.
-/

namespace ProcDarwin

/-! ## Constants of the Mach headers used by the file -/

/-- Value of `KERN_SUCCESS` in `<mach/kern_return.h>`. -/
def KERN_SUCCESS : Int := 0
/-- Value of `MACH_MSG_SUCCESS` in `<mach/message.h>`. -/
def MACH_MSG_SUCCESS : Int := 0
/-- Value of `MACH_RCV_INTERRUPTED` in `<mach/message.h>`. -/
def MACH_RCV_INTERRUPTED : Int := 0x10004005
/-- Value of `MACH_RCV_TIMED_OUT` in `<mach/message.h>`. -/
def MACH_RCV_TIMED_OUT : Int := 0x10004003
/-- Value of `MACH_PORT_NULL` in `<mach/port.h>`. -/
def MACH_PORT_NULL : Nat := 0
/-- Value of `MACH_SEND_MSG` in `<mach/message.h>`. -/
def MACH_SEND_MSG : Nat := 0x1
/-- Value of `MACH_RCV_MSG` in `<mach/message.h>`. -/
def MACH_RCV_MSG : Nat := 0x2
/-- Value of `MACH_SEND_INTERRUPT` in `<mach/message.h>`. -/
def MACH_SEND_INTERRUPT : Nat := 0x40
/-- Value of `MACH_RCV_TIMEOUT` in `<mach/message.h>`. -/
def MACH_RCV_TIMEOUT : Nat := 0x100
/-- Value of `MACH_RCV_INTERRUPT` in `<mach/message.h>`. -/
def MACH_RCV_INTERRUPT : Nat := 0x400
/-- Value of `MACH_MSG_TIMEOUT_NONE` in `<mach/message.h>`. -/
def MACH_MSG_TIMEOUT_NONE : Nat := 0
/-- Value of `MACH_MSGH_BITS_REMOTE_MASK` in `<mach/message.h>`. -/
def MACH_MSGH_BITS_REMOTE_MASK : Nat := 0x1f
/-- Value of `MACH_MSGH_BITS_LOCAL_MASK` in `<mach/message.h>`. -/
def MACH_MSGH_BITS_LOCAL_MASK : Nat := 0x1f00
/-- Value of `EXC_SOFT_SIGNAL` in `<mach/exception_types.h>`. -/
def EXC_SOFT_SIGNAL : Int := 0x10003
/-- Value of `EXC_SOFTWARE` in `<mach/exception_types.h>`. -/
def EXC_SOFTWARE : Int := 5
/-- Value of `EXC_BREAKPOINT` in `<mach/exception_types.h>`. -/
def EXC_BREAKPOINT : Int := 6
/-- Value of `SIGTRAP` in `<sys/signal.h>`. -/
def SIGTRAP : Int := 5

/-- The macro `MACH_MSGH_BITS_REMOTE(bits)` of `<mach/message.h>`:
`((bits) & MACH_MSGH_BITS_REMOTE_MASK)`. -/
def MACH_MSGH_BITS_REMOTE (bits : Nat) : Nat := bits &&& MACH_MSGH_BITS_REMOTE_MASK

/-- The macro `MACH_MSGH_BITS_LOCAL(bits)` of `<mach/message.h>`:
`((bits) & MACH_MSGH_BITS_LOCAL_MASK)`. -/
def MACH_MSGH_BITS_LOCAL (bits : Nat) : Nat := bits &&& MACH_MSGH_BITS_LOCAL_MASK

/-- The macro `MACH_MSGH_BITS(remote, local)` of `<mach/message.h>`:
`((remote) | ((local) << 8))`. -/
def MACH_MSGH_BITS (remote r_local : Nat) : Nat := remote ||| (r_local <<< 8)

/-! ## Machine integers -/

/-- The value of a 32-bit word read as a C `int` (two's complement). -/
def int32_of_word (w : Nat) : Int :=
  if w % 2 ^ 32 < 2 ^ 31 then ((w % 2 ^ 32 : Nat) : Int) else ((w % 2 ^ 32 : Nat) : Int) - 2 ^ 32

/-- Wrap an integer into the range of a C `int` (two's complement, 32 bits). -/
def wrap_int32 (x : Int) : Int := (x + 2 ^ 31) % 2 ^ 32 - 2 ^ 31

/-- Conversion of a C `int` to `unsigned int`. -/
def uint32_of_int (x : Int) : Nat := (x % 2 ^ 32).toNat

/-! ## Message layout -/

/-- The fields of `mach_msg_header_t` that the file reads or writes.  The remaining
field (`msgh_voucher_port`, formerly `msgh_reserved`) is never read and never
assigned by this file. -/
structure mach_msg_header_t where
  msgh_bits : Nat
  msgh_size : Nat
  msgh_remote_port : Nat
  msgh_local_port : Nat
  msgh_id : Int
  deriving DecidableEq, Repr

/-- The receive buffer `union { mach_msg_header_t hdr; char data[256]; } msg`, as the
list of its 32-bit words. -/
abbrev MsgBuf := List Nat

/-- The 32-bit word of the buffer at an (aligned) byte offset. -/
def word (msg : MsgBuf) (byte_off : Nat) : Nat := msg.getD (byte_off / 4) 0 % 2 ^ 32

/-- Value of `sizeof(mach_msg_header_t)`. -/
def sizeof_header : Nat := 24
/-- Value of `sizeof(mach_msg_body_t)`. -/
def sizeof_body : Nat := 4
/-- Value of `sizeof(mach_msg_port_descriptor_t)`; `name` is its first field. -/
def sizeof_port_descriptor : Nat := 12
/-- Value of `sizeof(NDR_record_t)`. -/
def sizeof_NDR_record : Nat := 8
/-- Value of `sizeof(integer_t)`. -/
def sizeof_integer : Nat := 4
/-- Value of `sizeof(mig_reply_error_t)`: a header, an NDR record and a return code. -/
def sizeof_mig_reply_error : Nat := 36

/-- The view `msg.hdr` of the buffer. -/
def msg_hdr (msg : MsgBuf) : mach_msg_header_t where
  msgh_bits := word msg 0
  msgh_size := word msg 4
  msgh_remote_port := word msg 8
  msgh_local_port := word msg 12
  msgh_id := int32_of_word (word msg 20)

/-- Byte offset of `bod = (mach_msg_body_t*)(&msg.hdr + 1)`. -/
def bod_off : Nat := sizeof_header
/-- Byte offset of `desc = (mach_msg_port_descriptor_t *)(bod + 1)`. -/
def desc_off : Nat := bod_off + sizeof_body
/-- The field `desc[i].name`. -/
def desc_name (msg : MsgBuf) (i : Nat) : Nat := word msg (desc_off + i * sizeof_port_descriptor)
/-- Byte offset of `ndr = (NDR_record_t *)(desc + 2)` in the exception branch. -/
def exc_ndr_off : Nat := desc_off + 2 * sizeof_port_descriptor
/-- Byte offset of `data = (integer_t *)(ndr + 1)`. -/
def data_off : Nat := exc_ndr_off + sizeof_NDR_record
/-- The element `data[i]`, a C `int`.  In an `exception_raise` request `data[0]` is
the exception type, `data[1]` the code count, `data[2]` and `data[3]` the two codes. -/
def data (msg : MsgBuf) (i : Nat) : Int := int32_of_word (word msg (data_off + i * sizeof_integer))
/-- Byte offset of `ndr = (NDR_record_t *)(&msg.hdr + 1)` in the death branch. -/
def death_ndr_off : Nat := sizeof_header
/-- The value `*((mach_port_name_t *)(ndr + 1))` of the death branch. -/
def death_name (msg : MsgBuf) : Nat := word msg (death_ndr_off + sizeof_NDR_record)

/-- The global `NDR_record` of the Mach runtime, as its eight bytes. -/
def NDR_record : List Nat := [0, 0, 0, 0, 1, 0, 0, 0]

/-- The reply `mig_reply_error_t`. -/
structure mig_reply_error_t where
  Head : mach_msg_header_t
  NDR : List Nat
  RetCode : Int
  deriving DecidableEq, Repr

/-! ## Kernel calls of the wait loop -/

/-- A kernel call issued by `mach_port_wait` or `mach_send_reply`, with its arguments.
The two uses of `mach_msg` are kept apart: the receive into the buffer, and the send
of a reply. -/
inductive Call where
  | mach_msg_rcv (option send_size rcv_size rcv_name timeout notify_port : Nat)
  | mach_msg_send (reply : mig_reply_error_t)
      (option send_size rcv_size rcv_name timeout notify_port : Nat)
  | thread_suspend (thread : Nat)
  | thread_resume (thread : Nat)
  deriving DecidableEq, Repr

/-- `mach_send_reply(hdr)`: build the acknowledgment and send it.  The argument
`mach_msg` is the kernel: it gives the status of the send.  The result is the call that
was issued together with the value returned. -/
def mach_send_reply (hdr : mach_msg_header_t) (mach_msg : Call → Int) : Call × Int :=
  let msgh_size := sizeof_mig_reply_error
  let rh : mach_msg_header_t :=
    { msgh_bits := MACH_MSGH_BITS (MACH_MSGH_BITS_REMOTE hdr.msgh_bits) 0
      msgh_remote_port := hdr.msgh_remote_port
      msgh_size := msgh_size
      msgh_local_port := MACH_PORT_NULL
      msgh_id := wrap_int32 (hdr.msgh_id + 100) }
  let reply : mig_reply_error_t := { Head := rh, NDR := NDR_record, RetCode := KERN_SUCCESS }
  let call := Call.mach_msg_send reply (MACH_SEND_MSG ||| MACH_SEND_INTERRUPT) rh.msgh_size 0
    MACH_PORT_NULL MACH_MSG_TIMEOUT_NONE MACH_PORT_NULL
  (call, mach_msg call)

/-- What the kernel does for one iteration of the wait loop: the status of the receive
and the buffer it leaves, and the status of each kernel call the iteration may go on to
make. -/
structure RcvStep where
  rcv_kr : Int
  msg : MsgBuf
  suspend_kr : Int
  reply_kr : Int
  resume_kr : Int
  deriving DecidableEq, Repr

/-- The `return` statement through which `mach_port_wait` left (ghost information:
the C function returns only the value). -/
inductive ReturnPath where
  | interrupted
  | rcv_failed
  | suspend_failed
  | reply_failed
  | resume_failed
  | stopped
  | died
  | unknown_id
  deriving DecidableEq, Repr

/-- What a call of `mach_port_wait` that returns leaves behind. -/
structure Returned where
  value : Nat
  task : Nat
  path : ReturnPath
  deriving DecidableEq, Repr

/-- A run of `mach_port_wait`: the kernel calls issued, in order, and what was returned;
`none` when the call never returns (it is blocked in a receive without timeout and
the kernel delivers nothing more). -/
structure Run where
  calls : List Call
  result : Option Returned
  deriving DecidableEq, Repr

/-- The receive options computed at the top of `mach_port_wait`. -/
def rcv_options (nonblocking : Int) : Nat :=
  let opts := MACH_RCV_MSG ||| MACH_RCV_INTERRUPT
  if nonblocking ≠ 0 then opts ||| MACH_RCV_TIMEOUT else opts

/-- The receive call of `mach_port_wait`. -/
def rcv_call (port_set : Nat) (nonblocking : Int) : Call :=
  Call.mach_msg_rcv (rcv_options nonblocking) 0 256 port_set 10 MACH_PORT_NULL

/-- `mach_port_wait(port_set, task, nonblocking)`.  The argument `task` is the content
of `*task` on entry; the list is what the kernel does at each receive from now on.  When
the list is exhausted nothing more is delivered: a receive with `MACH_RCV_TIMEOUT`
times out (`MACH_RCV_TIMED_OUT`, which is neither `MACH_RCV_INTERRUPTED` nor
`MACH_MSG_SUCCESS`, so 0 is returned), a receive without it blocks for ever. -/
def mach_port_wait (port_set : Nat) (task : Nat) (nonblocking : Int) : List RcvStep → Run
  | [] =>
    let rcv := rcv_call port_set nonblocking
    if rcv_options nonblocking &&& MACH_RCV_TIMEOUT = 0 then ⟨[rcv], none⟩
    else ⟨[rcv], some ⟨0, task, .rcv_failed⟩⟩
  | s :: rest =>
    let rcv := rcv_call port_set nonblocking
    let kret := s.rcv_kr
    if kret = MACH_RCV_INTERRUPTED then ⟨[rcv], some ⟨uint32_of_int kret, task, .interrupted⟩⟩
    else if kret ≠ MACH_MSG_SUCCESS then ⟨[rcv], some ⟨0, task, .rcv_failed⟩⟩
    else
      let hdr := msg_hdr s.msg
      if hdr.msgh_id = 2401 then
        let thread := desc_name s.msg 0
        let task1 := desc_name s.msg 1
        if s.suspend_kr ≠ KERN_SUCCESS then
          ⟨[rcv, .thread_suspend thread], some ⟨0, task1, .suspend_failed⟩⟩
        else
          let sent := mach_send_reply hdr (fun _ => s.reply_kr)
          let kret := sent.2
          if kret ≠ MACH_MSG_SUCCESS then
            ⟨[rcv, .thread_suspend thread, sent.1], some ⟨0, task1, .reply_failed⟩⟩
          else if data s.msg 2 = EXC_SOFT_SIGNAL then
            if data s.msg 3 ≠ SIGTRAP then
              if s.resume_kr ≠ KERN_SUCCESS then
                ⟨[rcv, .thread_suspend thread, sent.1, .thread_resume thread],
                  some ⟨0, task1, .resume_failed⟩⟩
              else
                let r := mach_port_wait port_set task1 nonblocking rest
                ⟨[rcv, .thread_suspend thread, sent.1, .thread_resume thread] ++ r.calls,
                  r.result⟩
            else ⟨[rcv, .thread_suspend thread, sent.1], some ⟨thread, task1, .stopped⟩⟩
          else ⟨[rcv, .thread_suspend thread, sent.1], some ⟨thread, task1, .stopped⟩⟩
      else if hdr.msgh_id = 72 then
        ⟨[rcv], some ⟨hdr.msgh_local_port, death_name s.msg, .died⟩⟩
      else ⟨[rcv], some ⟨0, task, .unknown_id⟩⟩

/-! ## Thread enumeration -/

/-- `get_threads(task, slice, limit)`.  The kernel gives the status of `task_threads`
(`threads_kr`) with the thread list (`list`, whose length is `count`) and the status of
`vm_deallocate` (`dealloc_kr`).  `slice` is the memory at the address the caller passed,
as 32-bit words.  The result is the value returned and the memory at `slice` afterwards.
`count` is an `unsigned int` and `limit` an `int`, so C compares them as unsigned.  On
the `-2` path the C code also calls `vm_deallocate` and ignores its status. -/
def get_threads (threads_kr : Int) (list : List Nat) (dealloc_kr : Int)
    (slice : List Nat) (limit : Int) : Int × List Nat :=
  let kret := threads_kr
  let count := list.length % 2 ^ 32
  if kret ≠ KERN_SUCCESS then (kret, slice)
  else if count > uint32_of_int limit then (-2, slice)
  else
    let slice1 := list.take count ++ slice.drop count
    let kret := dealloc_kr
    if kret ≠ KERN_SUCCESS then (kret, slice1)
    else (0, slice1)

/-! ## Task acquisition -/

/-- Value of `MACH_PORT_RIGHT_RECEIVE` in `<mach/port.h>`. -/
def MACH_PORT_RIGHT_RECEIVE : Nat := 1
/-- Value of `MACH_PORT_RIGHT_PORT_SET` in `<mach/port.h>`. -/
def MACH_PORT_RIGHT_PORT_SET : Nat := 3
/-- Value of `MACH_MSG_TYPE_MAKE_SEND` in `<mach/message.h>`. -/
def MACH_MSG_TYPE_MAKE_SEND : Nat := 20
/-- Value of `MACH_MSG_TYPE_MAKE_SEND_ONCE` in `<mach/message.h>`. -/
def MACH_MSG_TYPE_MAKE_SEND_ONCE : Nat := 21
/-- Value of `EXC_MASK_BREAKPOINT` in `<mach/exception_types.h>`. -/
def EXC_MASK_BREAKPOINT : Nat := 0x40
/-- Value of `EXC_MASK_SOFTWARE` in `<mach/exception_types.h>`. -/
def EXC_MASK_SOFTWARE : Nat := 0x20
/-- Value of `EXCEPTION_DEFAULT` in `<mach/exception_types.h>`. -/
def EXCEPTION_DEFAULT : Nat := 1
/-- Value of `THREAD_STATE_NONE` in `<mach/i386/thread_status.h>`. -/
def THREAD_STATE_NONE : Nat := 13
/-- Value of `MACH_NOTIFY_DEAD_NAME` in `<mach/notify.h>`. -/
def MACH_NOTIFY_DEAD_NAME : Nat := 72

/-- A kernel call issued by `acquire_mach_task`, with its input arguments. -/
inductive KCall where
  | task_for_pid (target_tport : Nat) (pid : Int)
  | mach_port_allocate (task right : Nat)
  | mach_port_insert_right (task name poly polyPoly : Nat)
  | task_set_exception_ports (task exception_mask new_port behavior new_flavor : Nat)
  | mach_port_request_notification (task name msgid sync notify_port notifyPoly : Nat)
  | mach_port_move_member (task member after : Nat)
  deriving DecidableEq, Repr

/-- The part of the kernel state that `acquire_mach_task` acts on: what is in effect
for the calling task. -/
structure KernelState where
  task_ports : List (Int × Nat)
  ports : List (Nat × Nat)
  send_rights : List (Nat × Nat)
  exception_ports : List (Nat × Nat × Nat)
  notifications : List (Nat × Nat × Nat)
  members : List (Nat × Nat)
  deriving DecidableEq, Repr

/-- The effect of a successful kernel call; `stored` is the content of the call's
out-parameter after the call. -/
def apply_call (c : KCall) (stored : Nat) (k : KernelState) : KernelState :=
  match c with
  | .task_for_pid _ pid => { k with task_ports := (pid, stored) :: k.task_ports }
  | .mach_port_allocate _ right => { k with ports := (stored, right) :: k.ports }
  | .mach_port_insert_right _ name _ polyPoly =>
    { k with send_rights := (name, polyPoly) :: k.send_rights }
  | .task_set_exception_ports task exception_mask new_port _ _ =>
    { k with exception_ports := (task, exception_mask, new_port) :: k.exception_ports }
  | .mach_port_request_notification _ name msgid _ notify_port _ =>
    { k with notifications := (name, msgid, notify_port) :: k.notifications }
  | .mach_port_move_member _ member after => { k with members := (member, after) :: k.members }

/-- What the kernel does at each of the calls of `acquire_mach_task`, numbered in the
order of issue from 0: the status it returns, and what it stores into the call's
out-parameter (`none`: the out-parameter is left as it was). -/
structure KernelScript where
  kr : Nat → Int
  out : Nat → Option Nat

/-- The kernel state after a call: a call that fails changes nothing. -/
def kernel_after (kr : Int) (c : KCall) (stored : Nat) (k : KernelState) : KernelState :=
  if kr = KERN_SUCCESS then apply_call c stored k else k

/-- What `acquire_mach_task` leaves: the value returned, the contents of its four
out-parameters, the kernel calls issued in order, and the kernel state. -/
structure Acquired where
  kret : Int
  task : Nat
  port_set : Nat
  exception_port : Nat
  notification_port : Nat
  calls : List KCall
  kernel : KernelState

/-- `acquire_mach_task(tid, task, port_set, exception_port, notification_port)`.  The
four `Nat` arguments are the contents of the out-parameters on entry, `self` is the value
of `mach_task_self()`. -/
def acquire_mach_task (self : Nat) (tid : Int) (task port_set exception_port notification_port : Nat)
    (env : KernelScript) (k : KernelState) : Acquired :=
  let c0 := KCall.task_for_pid self tid
  let task := (env.out 0).getD task
  let k := kernel_after (env.kr 0) c0 task k
  if env.kr 0 ≠ KERN_SUCCESS then
    ⟨env.kr 0, task, port_set, exception_port, notification_port, [c0], k⟩
  else
  let c1 := KCall.mach_port_allocate self MACH_PORT_RIGHT_RECEIVE
  let exception_port := (env.out 1).getD exception_port
  let k := kernel_after (env.kr 1) c1 exception_port k
  if env.kr 1 ≠ KERN_SUCCESS then
    ⟨env.kr 1, task, port_set, exception_port, notification_port, [c0, c1], k⟩
  else
  let c2 := KCall.mach_port_insert_right self exception_port exception_port MACH_MSG_TYPE_MAKE_SEND
  let k := kernel_after (env.kr 2) c2 0 k
  if env.kr 2 ≠ KERN_SUCCESS then
    ⟨env.kr 2, task, port_set, exception_port, notification_port, [c0, c1, c2], k⟩
  else
  let c3 := KCall.task_set_exception_ports task (EXC_MASK_BREAKPOINT ||| EXC_MASK_SOFTWARE)
    exception_port EXCEPTION_DEFAULT THREAD_STATE_NONE
  let k := kernel_after (env.kr 3) c3 0 k
  if env.kr 3 ≠ KERN_SUCCESS then
    ⟨env.kr 3, task, port_set, exception_port, notification_port, [c0, c1, c2, c3], k⟩
  else
  let c4 := KCall.mach_port_allocate self MACH_PORT_RIGHT_RECEIVE
  let notification_port := (env.out 4).getD notification_port
  let k := kernel_after (env.kr 4) c4 notification_port k
  if env.kr 4 ≠ KERN_SUCCESS then
    ⟨env.kr 4, task, port_set, exception_port, notification_port, [c0, c1, c2, c3, c4], k⟩
  else
  let c5 := KCall.mach_port_insert_right self notification_port notification_port
    MACH_MSG_TYPE_MAKE_SEND
  let k := kernel_after (env.kr 5) c5 0 k
  if env.kr 5 ≠ KERN_SUCCESS then
    ⟨env.kr 5, task, port_set, exception_port, notification_port, [c0, c1, c2, c3, c4, c5], k⟩
  else
  let c6 := KCall.mach_port_request_notification self task MACH_NOTIFY_DEAD_NAME 0
    notification_port MACH_MSG_TYPE_MAKE_SEND_ONCE
  let k := kernel_after (env.kr 6) c6 0 k
  if env.kr 6 ≠ KERN_SUCCESS then
    ⟨env.kr 6, task, port_set, exception_port, notification_port,
      [c0, c1, c2, c3, c4, c5, c6], k⟩
  else
  let c7 := KCall.mach_port_allocate self MACH_PORT_RIGHT_PORT_SET
  let port_set := (env.out 7).getD port_set
  let k := kernel_after (env.kr 7) c7 port_set k
  if env.kr 7 ≠ KERN_SUCCESS then
    ⟨env.kr 7, task, port_set, exception_port, notification_port,
      [c0, c1, c2, c3, c4, c5, c6, c7], k⟩
  else
  let c8 := KCall.mach_port_move_member self exception_port port_set
  let k := kernel_after (env.kr 8) c8 0 k
  if env.kr 8 ≠ KERN_SUCCESS then
    ⟨env.kr 8, task, port_set, exception_port, notification_port,
      [c0, c1, c2, c3, c4, c5, c6, c7, c8], k⟩
  else
  let c9 := KCall.mach_port_move_member self notification_port port_set
  let k := kernel_after (env.kr 9) c9 0 k
  ⟨env.kr 9, task, port_set, exception_port, notification_port,
    [c0, c1, c2, c3, c4, c5, c6, c7, c8, c9], k⟩

/-! ## Vocabulary of the statements -/

/-- The call is the send of a reply. -/
def is_send : Call → Bool
  | .mach_msg_send .. => true
  | _ => false

/-- The send call that `mach_send_reply` issues for a header (it does not depend on what
the kernel answers). -/
def reply_call (hdr : mach_msg_header_t) : Call :=
  (mach_send_reply hdr (fun _ => MACH_MSG_SUCCESS)).1

/-- The calls of an iteration that hands its thread back. -/
def stop_calls (port_set : Nat) (nonblocking : Int) (s : RcvStep) : List Call :=
  [rcv_call port_set nonblocking, .thread_suspend (desc_name s.msg 0), reply_call (msg_hdr s.msg)]

/-- The calls of an iteration that filters its event out and goes on to wait again. -/
def filtered_calls (port_set : Nat) (nonblocking : Int) (s : RcvStep) : List Call :=
  [rcv_call port_set nonblocking, .thread_suspend (desc_name s.msg 0), reply_call (msg_hdr s.msg),
    .thread_resume (desc_name s.msg 0)]

/-- The code filters an exception out: the first code is `EXC_SOFT_SIGNAL` and the second
is not `SIGTRAP`. -/
def soft_signal_not_trap (msg : MsgBuf) : Prop :=
  data msg 2 = EXC_SOFT_SIGNAL ∧ data msg 3 ≠ SIGTRAP

instance (msg : MsgBuf) : Decidable (soft_signal_not_trap msg) := by
  unfold soft_signal_not_trap; infer_instance

/-- An `exception_raise` request (`msgh_id` 2401) as the kernel lays it out: header,
body with two port descriptors (thread, task), NDR record, exception type, code count
and two codes. -/
def exc_msg (thread task exception code0 code1 : Nat) : MsgBuf :=
  [0x80001112, 76, 0x707, 0x1503, 0, 2401,
   2, thread, 0, 0x110000, task, 0, 0x110000,
   0, 1, exception, 2, code0, code1]

/-- A `mach_notify_dead_name` message (`msgh_id` 72) for a name. -/
def dead_name_msg (name : Nat) : MsgBuf :=
  [0x12, 36, 0, 0x1603, 0, 72, 0, 1, name]

/-- A software exception carrying `SIGTRAP` on thread `0x2003` of task `0x1203`; every
kernel call succeeds. -/
def trap_step : RcvStep := ⟨0, exc_msg 0x2003 0x1203 5 0x10003 5, 0, 0, 0⟩

/-- A software exception carrying `SIGSEGV` (11) on thread `0x2003` of task `0x1203`;
every kernel call succeeds. -/
def segv_step : RcvStep := ⟨0, exc_msg 0x2003 0x1203 5 0x10003 11, 0, 0, 0⟩

/-- An `EXC_BREAKPOINT` (6) exception whose two codes are `0x10003` and 11; every kernel
call succeeds. -/
def breakpoint_step : RcvStep := ⟨0, exc_msg 0x2003 0x1203 6 0x10003 11, 0, 0, 0⟩

/-- A dead-name notification for task `0x1203`, received on port `0x1603`. -/
def death_step : RcvStep := ⟨0, dead_name_msg 0x1203, 0, 0, 0⟩

/-- A receive that is interrupted (`MACH_RCV_INTERRUPTED`); the buffer is not filled. -/
def interrupted_step : RcvStep := ⟨0x10004005, [], 0, 0, 0⟩

/-- The numbers of the ten kernel calls of `acquire_mach_task`, in the order of issue. -/
def acquire_steps : List Nat := [0, 1, 2, 3, 4, 5, 6, 7, 8, 9]

/-- The first call whose status is not `KERN_SUCCESS`, if there is one. -/
def first_failure (env : KernelScript) : Option Nat :=
  acquire_steps.find? (fun i => decide (env.kr i ≠ KERN_SUCCESS))

/-- The ten kernel calls of `acquire_mach_task` in the order of the source, each with the
content of its out-parameter after the call (0 for a call without one). -/
def acquire_plan (self : Nat) (tid : Int)
    (task port_set exception_port notification_port : Nat) (env : KernelScript) :
    List (KCall × Nat) :=
  let task := (env.out 0).getD task
  let exception_port := (env.out 1).getD exception_port
  let notification_port := (env.out 4).getD notification_port
  let port_set := (env.out 7).getD port_set
  [(.task_for_pid self tid, task),
   (.mach_port_allocate self MACH_PORT_RIGHT_RECEIVE, exception_port),
   (.mach_port_insert_right self exception_port exception_port MACH_MSG_TYPE_MAKE_SEND, 0),
   (.task_set_exception_ports task (EXC_MASK_BREAKPOINT ||| EXC_MASK_SOFTWARE) exception_port
      EXCEPTION_DEFAULT THREAD_STATE_NONE, 0),
   (.mach_port_allocate self MACH_PORT_RIGHT_RECEIVE, notification_port),
   (.mach_port_insert_right self notification_port notification_port MACH_MSG_TYPE_MAKE_SEND, 0),
   (.mach_port_request_notification self task MACH_NOTIFY_DEAD_NAME 0 notification_port
      MACH_MSG_TYPE_MAKE_SEND_ONCE, 0),
   (.mach_port_allocate self MACH_PORT_RIGHT_PORT_SET, port_set),
   (.mach_port_move_member self exception_port port_set, 0),
   (.mach_port_move_member self notification_port port_set, 0)]

/-- The number of calls issued: up to and including the first failing one. -/
def issued (env : KernelScript) : Nat :=
  match first_failure env with
  | some i => i + 1
  | none => 10

/-- The number of calls that succeeded: those before the first failing one. -/
def succeeded (env : KernelScript) : Nat :=
  match first_failure env with
  | some i => i
  | none => 10

/-- The status of the first failing call, `KERN_SUCCESS` if there is none. -/
def first_failure_code (env : KernelScript) : Int :=
  match first_failure env with
  | some i => env.kr i
  | none => KERN_SUCCESS

/-- The number of entries of a kernel state. -/
def state_size (k : KernelState) : Nat :=
  k.task_ports.length + k.ports.length + k.send_rights.length + k.exception_ports.length +
    k.notifications.length + k.members.length

/-- The kernel state with nothing in effect. -/
def empty_kernel : KernelState := ⟨[], [], [], [], [], []⟩

/-- A kernel in which `mach_port_insert_right` on the exception port (call 2) fails with
`KERN_FAILURE` (5) and every other call succeeds; `task_for_pid` yields `0x1203` and the
allocations yield `0x1503`, `0x1603` and `0x1703`. -/
def insert_right_fails : KernelScript where
  kr := fun i => if i = 2 then 5 else 0
  out := fun i =>
    if i = 0 then some 0x1203 else if i = 1 then some 0x1503 else if i = 4 then some 0x1603
    else if i = 7 then some 0x1703 else none

/-! ## Stepping lemmas for the wait loop -/

theorem mach_send_reply_call (hdr : mach_msg_header_t) (mach_msg : Call → Int) :
    (mach_send_reply hdr mach_msg).1 = reply_call hdr := rfl

theorem mach_send_reply_ret (hdr : mach_msg_header_t) (mach_msg : Call → Int) :
    (mach_send_reply hdr mach_msg).2 = mach_msg (reply_call hdr) := rfl

theorem success_ne_interrupted : MACH_MSG_SUCCESS ≠ MACH_RCV_INTERRUPTED := by decide

/-- An exception that the code does not filter out is handed back. -/
theorem wait_stop (port_set task : Nat) (nonblocking : Int) (s : RcvStep) (rest : List RcvStep)
    (h_rcv : s.rcv_kr = MACH_MSG_SUCCESS) (h_id : (msg_hdr s.msg).msgh_id = 2401)
    (h_susp : s.suspend_kr = KERN_SUCCESS) (h_reply : s.reply_kr = MACH_MSG_SUCCESS)
    (h_keep : ¬ soft_signal_not_trap s.msg) :
    mach_port_wait port_set task nonblocking (s :: rest) =
      ⟨stop_calls port_set nonblocking s,
        some ⟨desc_name s.msg 0, desc_name s.msg 1, .stopped⟩⟩ := by
  simp only [mach_port_wait, h_rcv, h_id, h_susp, mach_send_reply_call, mach_send_reply_ret,
    h_reply, stop_calls, ne_eq, not_true_eq_false, if_false, if_true, success_ne_interrupted]
  by_cases h0 : data s.msg 2 = EXC_SOFT_SIGNAL
  · have h3 : data s.msg 3 = SIGTRAP := by
      by_contra h
      exact h_keep ⟨h0, h⟩
    simp [h0, h3]
  · simp [h0]

/-- An exception that the code filters out: after the resume the loop waits again, on the
same task cell, which now holds the task name of the filtered message. -/
theorem wait_filter (port_set task : Nat) (nonblocking : Int) (s : RcvStep) (rest : List RcvStep)
    (h_rcv : s.rcv_kr = MACH_MSG_SUCCESS) (h_id : (msg_hdr s.msg).msgh_id = 2401)
    (h_susp : s.suspend_kr = KERN_SUCCESS) (h_reply : s.reply_kr = MACH_MSG_SUCCESS)
    (h_drop : soft_signal_not_trap s.msg) (h_resume : s.resume_kr = KERN_SUCCESS) :
    mach_port_wait port_set task nonblocking (s :: rest) =
      ⟨filtered_calls port_set nonblocking s ++
          (mach_port_wait port_set (desc_name s.msg 1) nonblocking rest).calls,
        (mach_port_wait port_set (desc_name s.msg 1) nonblocking rest).result⟩ := by
  obtain ⟨h0, h3⟩ := h_drop
  simp [mach_port_wait, h_rcv, h_id, h_susp, mach_send_reply_call, mach_send_reply_ret,
    h_reply, filtered_calls, success_ne_interrupted, h0, h3, h_resume]

/-- A failed `thread_suspend` ends the call before any reply. -/
theorem wait_suspend_failed (port_set task : Nat) (nonblocking : Int) (s : RcvStep)
    (rest : List RcvStep)
    (h_rcv : s.rcv_kr = MACH_MSG_SUCCESS) (h_id : (msg_hdr s.msg).msgh_id = 2401)
    (h_susp : s.suspend_kr ≠ KERN_SUCCESS) :
    mach_port_wait port_set task nonblocking (s :: rest) =
      ⟨[rcv_call port_set nonblocking, .thread_suspend (desc_name s.msg 0)],
        some ⟨0, desc_name s.msg 1, .suspend_failed⟩⟩ := by
  simp [mach_port_wait, h_rcv, h_id, h_susp, success_ne_interrupted]

/-- A failed reply send ends the call. -/
theorem wait_reply_failed (port_set task : Nat) (nonblocking : Int) (s : RcvStep)
    (rest : List RcvStep)
    (h_rcv : s.rcv_kr = MACH_MSG_SUCCESS) (h_id : (msg_hdr s.msg).msgh_id = 2401)
    (h_susp : s.suspend_kr = KERN_SUCCESS) (h_reply : s.reply_kr ≠ MACH_MSG_SUCCESS) :
    mach_port_wait port_set task nonblocking (s :: rest) =
      ⟨stop_calls port_set nonblocking s, some ⟨0, desc_name s.msg 1, .reply_failed⟩⟩ := by
  simp [mach_port_wait, h_rcv, h_id, h_susp, mach_send_reply_call, mach_send_reply_ret,
    h_reply, success_ne_interrupted, stop_calls]

/-- A failed `thread_resume` of a filtered event ends the call. -/
theorem wait_resume_failed (port_set task : Nat) (nonblocking : Int) (s : RcvStep)
    (rest : List RcvStep)
    (h_rcv : s.rcv_kr = MACH_MSG_SUCCESS) (h_id : (msg_hdr s.msg).msgh_id = 2401)
    (h_susp : s.suspend_kr = KERN_SUCCESS) (h_reply : s.reply_kr = MACH_MSG_SUCCESS)
    (h_drop : soft_signal_not_trap s.msg) (h_resume : s.resume_kr ≠ KERN_SUCCESS) :
    mach_port_wait port_set task nonblocking (s :: rest) =
      ⟨filtered_calls port_set nonblocking s, some ⟨0, desc_name s.msg 1, .resume_failed⟩⟩ := by
  obtain ⟨h0, h3⟩ := h_drop
  simp [mach_port_wait, h_rcv, h_id, h_susp, mach_send_reply_call, mach_send_reply_ret,
    h_reply, filtered_calls, success_ne_interrupted, h0, h3, h_resume]

/-! ## The wait loop: claims -/

/-- C2: a received exception-raise message (`msgh_id` 2401) whose codes are
`EXC_SOFT_SIGNAL` and `SIGTRAP`, with `thread_suspend` and the reply send succeeding,
makes `mach_port_wait` return the thread name of the first port descriptor and store the
name of the second descriptor as the task; the calls issued are the receive, the suspend
of that thread and one reply, so exactly one reply is sent. -/
theorem C2_trap_returns_embedded_thread (port_set task : Nat) (nonblocking : Int)
    (s : RcvStep) (rest : List RcvStep)
    (h_rcv : s.rcv_kr = MACH_MSG_SUCCESS) (h_id : (msg_hdr s.msg).msgh_id = 2401)
    (h_code0 : data s.msg 2 = EXC_SOFT_SIGNAL) (h_code1 : data s.msg 3 = SIGTRAP)
    (h_susp : s.suspend_kr = KERN_SUCCESS) (h_reply : s.reply_kr = MACH_MSG_SUCCESS) :
    (mach_port_wait port_set task nonblocking (s :: rest)).result =
        some ⟨desc_name s.msg 0, desc_name s.msg 1, .stopped⟩ ∧
      (mach_port_wait port_set task nonblocking (s :: rest)).calls =
        [rcv_call port_set nonblocking, .thread_suspend (desc_name s.msg 0),
          reply_call (msg_hdr s.msg)] ∧
      (mach_port_wait port_set task nonblocking (s :: rest)).calls.countP is_send = 1 := by
  have h_keep : ¬ soft_signal_not_trap s.msg := fun h => h.2 ((fun _ => h_code1) h_code0)
  rw [wait_stop port_set task nonblocking s rest h_rcv h_id h_susp h_reply h_keep]
  refine ⟨rfl, rfl, ?_⟩
  rfl

/-- Witness of C2 on a `SIGTRAP` software exception for thread `0x2003` of task `0x1203`. -/
theorem C2_trap_returns_embedded_thread_witness :
    (mach_port_wait 0x1703 0 0 [trap_step]).result = some ⟨0x2003, 0x1203, .stopped⟩ ∧
      (mach_port_wait 0x1703 0 0 [trap_step]).calls.countP is_send = 1 :=
  ⟨(C2_trap_returns_embedded_thread 0x1703 0 0 trap_step [] (by decide) (by decide)
      (by decide) (by decide) (by decide) (by decide)).1,
    (C2_trap_returns_embedded_thread 0x1703 0 0 trap_step [] (by decide) (by decide)
      (by decide) (by decide) (by decide) (by decide)).2.2⟩

/-- C4: a received dead-name notification (`msgh_id` 72) makes `mach_port_wait` return
through the death branch, with the port name that follows the NDR record written to the
task output and the port the message arrived on as the value; the only kernel call of the
run is the receive, so no reply is sent and no thread is suspended or resumed. -/
theorem C4_dead_name_reports_died (port_set task : Nat) (nonblocking : Int)
    (s : RcvStep) (rest : List RcvStep)
    (h_rcv : s.rcv_kr = MACH_MSG_SUCCESS) (h_id : (msg_hdr s.msg).msgh_id = 72) :
    (mach_port_wait port_set task nonblocking (s :: rest)).result =
        some ⟨(msg_hdr s.msg).msgh_local_port,
          word s.msg (sizeof_header + sizeof_NDR_record), .died⟩ ∧
      (mach_port_wait port_set task nonblocking (s :: rest)).calls =
        [rcv_call port_set nonblocking] ∧
      ∀ c ∈ (mach_port_wait port_set task nonblocking (s :: rest)).calls,
        is_send c = false ∧ (∀ t, c ≠ .thread_suspend t) ∧ (∀ t, c ≠ .thread_resume t) := by
  have h : mach_port_wait port_set task nonblocking (s :: rest) =
      ⟨[rcv_call port_set nonblocking],
        some ⟨(msg_hdr s.msg).msgh_local_port, death_name s.msg, .died⟩⟩ := by
    simp [mach_port_wait, h_rcv, h_id, success_ne_interrupted]
  rw [h]
  refine ⟨rfl, rfl, ?_⟩
  intro c hc
  simp only [List.mem_singleton] at hc
  subst hc
  refine ⟨rfl, ?_, ?_⟩ <;> intro t h <;> simp [rcv_call] at h

/-- Witness of C4 on the notification that task `0x1203` died, received on port `0x1603`. -/
theorem C4_dead_name_reports_died_witness :
    (mach_port_wait 0x1703 0 0 [death_step]).result = some ⟨0x1603, 0x1203, .died⟩ ∧
      (mach_port_wait 0x1703 0 0 [death_step]).calls = [rcv_call 0x1703 0] :=
  ⟨(C4_dead_name_reports_died 0x1703 0 0 death_step [] (by decide) (by decide)).1,
    (C4_dead_name_reports_died 0x1703 0 0 death_step [] (by decide) (by decide)).2.1⟩

/-- C10: for every header `hdr`, `mach_send_reply` sends one message whose remote port is
`hdr.msgh_remote_port`, whose local port is `MACH_PORT_NULL`, whose bits are the remote
disposition of `hdr.msgh_bits` with a zero local part, whose size is
`sizeof(mig_reply_error_t)`, whose id is `hdr.msgh_id + 100` in 32-bit arithmetic (2501
when the id is 2401) and whose return code is `KERN_SUCCESS`; the value returned is the
status the kernel gives for sending exactly that message. -/
theorem C10_reply_mirrors_header (hdr : mach_msg_header_t) (mach_msg : Call → Int) :
    ∃ reply : mig_reply_error_t,
      mach_send_reply hdr mach_msg =
        (Call.mach_msg_send reply (MACH_SEND_MSG ||| MACH_SEND_INTERRUPT)
            sizeof_mig_reply_error 0 MACH_PORT_NULL MACH_MSG_TIMEOUT_NONE MACH_PORT_NULL,
          mach_msg (Call.mach_msg_send reply (MACH_SEND_MSG ||| MACH_SEND_INTERRUPT)
            sizeof_mig_reply_error 0 MACH_PORT_NULL MACH_MSG_TIMEOUT_NONE MACH_PORT_NULL)) ∧
      reply.Head.msgh_remote_port = hdr.msgh_remote_port ∧
      reply.Head.msgh_local_port = MACH_PORT_NULL ∧
      reply.Head.msgh_bits = MACH_MSGH_BITS_REMOTE hdr.msgh_bits ∧
      MACH_MSGH_BITS_LOCAL reply.Head.msgh_bits = 0 ∧
      reply.Head.msgh_size = sizeof_mig_reply_error ∧
      reply.Head.msgh_id = wrap_int32 (hdr.msgh_id + 100) ∧
      reply.Head.msgh_id ≡ hdr.msgh_id + 100 [ZMOD 2 ^ 32] ∧
      -2 ^ 31 ≤ reply.Head.msgh_id ∧ reply.Head.msgh_id < 2 ^ 31 ∧
      wrap_int32 (2401 + 100) = 2501 ∧
      reply.NDR = NDR_record ∧
      reply.RetCode = KERN_SUCCESS := by
  refine ⟨_, rfl, rfl, rfl, ?_, ?_, rfl, rfl, ?_, ?_, ?_, by decide, rfl, rfl⟩
  · show MACH_MSGH_BITS (MACH_MSGH_BITS_REMOTE hdr.msgh_bits) 0 = _
    simp [MACH_MSGH_BITS]
  · show MACH_MSGH_BITS_LOCAL (MACH_MSGH_BITS (MACH_MSGH_BITS_REMOTE hdr.msgh_bits) 0) = 0
    simp only [MACH_MSGH_BITS, MACH_MSGH_BITS_LOCAL, MACH_MSGH_BITS_REMOTE, Nat.zero_shiftLeft,
      Nat.or_zero, Nat.and_assoc]
    have : MACH_MSGH_BITS_REMOTE_MASK &&& MACH_MSGH_BITS_LOCAL_MASK = 0 := by decide
    rw [this, Nat.and_zero]
  · show wrap_int32 (hdr.msgh_id + 100) ≡ hdr.msgh_id + 100 [ZMOD 2 ^ 32]
    unfold wrap_int32
    have h : (hdr.msgh_id + 100 + 2 ^ 31) % 2 ^ 32 ≡ hdr.msgh_id + 100 + 2 ^ 31 [ZMOD 2 ^ 32] :=
      Int.mod_modEq _ _
    have h2 := Int.ModEq.sub_right (2 ^ 31) h
    simpa using h2
  · show -2 ^ 31 ≤ wrap_int32 (hdr.msgh_id + 100)
    unfold wrap_int32
    have := Int.emod_nonneg (hdr.msgh_id + 100 + 2 ^ 31) (by norm_num : (2 ^ 32 : Int) ≠ 0)
    omega
  · show wrap_int32 (hdr.msgh_id + 100) < 2 ^ 31
    unfold wrap_int32
    have := Int.emod_lt_of_pos (hdr.msgh_id + 100 + 2 ^ 31) (by norm_num : (0 : Int) < 2 ^ 32)
    omega

/-- C9 (as stated) fails: an `EXC_BREAKPOINT` exception (not the software class) whose
two codes are `EXC_SOFT_SIGNAL` and 11 is not handed back although `thread_suspend` and
the reply succeed: its thread is resumed and the loop receives again (here the second
receive times out and 0 is returned). -/
theorem C9_breakpoint_class_filtered :
    data breakpoint_step.msg 0 = EXC_BREAKPOINT ∧
      data breakpoint_step.msg 0 ≠ EXC_SOFTWARE ∧
      mach_port_wait 0x1703 0 1 [breakpoint_step] =
        ⟨[rcv_call 0x1703 1, .thread_suspend 0x2003, reply_call (msg_hdr breakpoint_step.msg),
            .thread_resume 0x2003, rcv_call 0x1703 1],
          some ⟨0, 0x1203, .rcv_failed⟩⟩ ∧
      (mach_port_wait 0x1703 0 1 [breakpoint_step]).result ≠
        some ⟨0x2003, 0x1203, .stopped⟩ := by
  decide

/-- C9 (amended): for a received exception-raise message (`msgh_id` 2401) with
`thread_suspend` and the reply send succeeding, whatever the exception class `data[0]` is
(in particular when it is not the software class): unless the first code is
`EXC_SOFT_SIGNAL` and the second is not `SIGTRAP`, the embedded thread is returned as a
stop event after the receive, its suspend and the reply, without a resume and without
another receive.  An exception is filtered out only when the first code is
`EXC_SOFT_SIGNAL` and the second is not `SIGTRAP`: a run that is not that stop run, or
that resumes a thread, has such codes.  With such codes the event is not handed back:
the thread is resumed after the reply, and then the run is the wait on the rest of the
sequence (same calls onwards, same result), or, if the resume fails, 0 is returned. -/
theorem C9_stop_unless_soft_signal_not_trap (port_set task : Nat) (nonblocking : Int)
    (s : RcvStep) (rest : List RcvStep)
    (h_rcv : s.rcv_kr = MACH_MSG_SUCCESS) (h_id : (msg_hdr s.msg).msgh_id = 2401)
    (h_susp : s.suspend_kr = KERN_SUCCESS) (h_reply : s.reply_kr = MACH_MSG_SUCCESS) :
    (¬ (data s.msg 2 = EXC_SOFT_SIGNAL ∧ data s.msg 3 ≠ SIGTRAP) →
        mach_port_wait port_set task nonblocking (s :: rest) =
          ⟨[rcv_call port_set nonblocking, .thread_suspend (desc_name s.msg 0),
              reply_call (msg_hdr s.msg)],
            some ⟨desc_name s.msg 0, desc_name s.msg 1, .stopped⟩⟩) ∧
      (mach_port_wait port_set task nonblocking (s :: rest) ≠
          ⟨[rcv_call port_set nonblocking, .thread_suspend (desc_name s.msg 0),
              reply_call (msg_hdr s.msg)],
            some ⟨desc_name s.msg 0, desc_name s.msg 1, .stopped⟩⟩ →
        data s.msg 2 = EXC_SOFT_SIGNAL ∧ data s.msg 3 ≠ SIGTRAP) ∧
      ((∃ t, Call.thread_resume t ∈
          (mach_port_wait port_set task nonblocking (s :: rest)).calls) →
        data s.msg 2 = EXC_SOFT_SIGNAL ∧ data s.msg 3 ≠ SIGTRAP) ∧
      ((data s.msg 2 = EXC_SOFT_SIGNAL ∧ data s.msg 3 ≠ SIGTRAP) →
        s.resume_kr = KERN_SUCCESS →
        mach_port_wait port_set task nonblocking (s :: rest) =
          ⟨[rcv_call port_set nonblocking, .thread_suspend (desc_name s.msg 0),
              reply_call (msg_hdr s.msg), .thread_resume (desc_name s.msg 0)] ++
              (mach_port_wait port_set (desc_name s.msg 1) nonblocking rest).calls,
            (mach_port_wait port_set (desc_name s.msg 1) nonblocking rest).result⟩) ∧
      ((data s.msg 2 = EXC_SOFT_SIGNAL ∧ data s.msg 3 ≠ SIGTRAP) →
        s.resume_kr ≠ KERN_SUCCESS →
        mach_port_wait port_set task nonblocking (s :: rest) =
          ⟨[rcv_call port_set nonblocking, .thread_suspend (desc_name s.msg 0),
              reply_call (msg_hdr s.msg), .thread_resume (desc_name s.msg 0)],
            some ⟨0, desc_name s.msg 1, .resume_failed⟩⟩) := by
  have h_stop : ¬ (data s.msg 2 = EXC_SOFT_SIGNAL ∧ data s.msg 3 ≠ SIGTRAP) →
      mach_port_wait port_set task nonblocking (s :: rest) =
        ⟨[rcv_call port_set nonblocking, .thread_suspend (desc_name s.msg 0),
            reply_call (msg_hdr s.msg)],
          some ⟨desc_name s.msg 0, desc_name s.msg 1, .stopped⟩⟩ := fun h_keep =>
    wait_stop port_set task nonblocking s rest h_rcv h_id h_susp h_reply h_keep
  refine ⟨h_stop, ?_, ?_, ?_, ?_⟩
  · intro h_ne
    by_contra h_keep
    exact h_ne (h_stop h_keep)
  · rintro ⟨t, h_mem⟩
    by_contra h_keep
    rw [h_stop h_keep] at h_mem
    simp [rcv_call, reply_call, mach_send_reply] at h_mem
  · intro h_drop h_resume
    exact wait_filter port_set task nonblocking s rest h_rcv h_id h_susp h_reply h_drop h_resume
  · intro h_drop h_resume
    exact wait_resume_failed port_set task nonblocking s rest h_rcv h_id h_susp h_reply h_drop
      h_resume

/-- Witness of the amended C9.  An `EXC_BAD_ACCESS` (1) exception with codes 2 and
`0x1000` is handed back; an `EXC_BREAKPOINT` exception with codes `0x10003` and 11,
followed by a dead-name notification, is filtered out and the notification is what the
run goes on with. -/
theorem C9_stop_unless_soft_signal_not_trap_witness :
    mach_port_wait 0x1703 0 0 [⟨0, exc_msg 0x2003 0x1203 1 2 0x1000, 0, 0, 0⟩] =
        ⟨[rcv_call 0x1703 0, .thread_suspend 0x2003,
            reply_call (msg_hdr (exc_msg 0x2003 0x1203 1 2 0x1000))],
          some ⟨0x2003, 0x1203, .stopped⟩⟩ ∧
      mach_port_wait 0x1703 0 0 [breakpoint_step, death_step] =
        ⟨[rcv_call 0x1703 0, .thread_suspend 0x2003, reply_call (msg_hdr breakpoint_step.msg),
            .thread_resume 0x2003] ++ (mach_port_wait 0x1703 0x1203 0 [death_step]).calls,
          (mach_port_wait 0x1703 0x1203 0 [death_step]).result⟩ :=
  ⟨(C9_stop_unless_soft_signal_not_trap 0x1703 0 0 ⟨0, exc_msg 0x2003 0x1203 1 2 0x1000, 0, 0, 0⟩
      [] (by decide) (by decide) (by decide) (by decide)).1 (by decide),
    (C9_stop_unless_soft_signal_not_trap 0x1703 0 0 breakpoint_step [death_step] (by decide)
      (by decide) (by decide) (by decide)).2.2.2.1 (by decide) (by decide)⟩

/-- The calls of a run, the value returned and the return path do not depend on what the
task cell holds on entry.  Neither does the task output, unless the run returns without
storing a task (interrupted or failed receive, unknown message id): then the task output
is the entry content. -/
theorem wait_task_independent (port_set : Nat) (nonblocking : Int) (inbox : List RcvStep)
    (t1 t2 : Nat) :
    (mach_port_wait port_set t1 nonblocking inbox).calls =
        (mach_port_wait port_set t2 nonblocking inbox).calls ∧
      ((mach_port_wait port_set t1 nonblocking inbox).result =
          (mach_port_wait port_set t2 nonblocking inbox).result ∨
        ∃ v p, (mach_port_wait port_set t1 nonblocking inbox).result = some ⟨v, t1, p⟩ ∧
          (mach_port_wait port_set t2 nonblocking inbox).result = some ⟨v, t2, p⟩ ∧
          (p = .interrupted ∨ p = .rcv_failed ∨ p = .unknown_id)) := by
  cases inbox with
  | nil =>
    simp only [mach_port_wait]
    split_ifs
    · exact ⟨rfl, Or.inl rfl⟩
    · exact ⟨rfl, Or.inr ⟨_, _, rfl, rfl, Or.inr (Or.inl rfl)⟩⟩
  | cons s rest =>
    by_cases h_rcv : s.rcv_kr = MACH_MSG_SUCCESS
    swap
    · have h : ∀ t, mach_port_wait port_set t nonblocking (s :: rest) =
          if s.rcv_kr = MACH_RCV_INTERRUPTED then
            ⟨[rcv_call port_set nonblocking],
              some ⟨uint32_of_int s.rcv_kr, t, .interrupted⟩⟩
          else ⟨[rcv_call port_set nonblocking], some ⟨0, t, .rcv_failed⟩⟩ := by
        intro t
        simp [mach_port_wait, h_rcv]
      rw [h t1, h t2]
      split_ifs
      · exact ⟨rfl, Or.inr ⟨_, _, rfl, rfl, Or.inl rfl⟩⟩
      · exact ⟨rfl, Or.inr ⟨_, _, rfl, rfl, Or.inr (Or.inl rfl)⟩⟩
    by_cases h_id : (msg_hdr s.msg).msgh_id = 2401
    swap
    · have h : ∀ t, mach_port_wait port_set t nonblocking (s :: rest) =
          if (msg_hdr s.msg).msgh_id = 72 then
            ⟨[rcv_call port_set nonblocking],
              some ⟨(msg_hdr s.msg).msgh_local_port, death_name s.msg, .died⟩⟩
          else ⟨[rcv_call port_set nonblocking], some ⟨0, t, .unknown_id⟩⟩ := by
        intro t
        simp [mach_port_wait, h_rcv, h_id, success_ne_interrupted]
      rw [h t1, h t2]
      split_ifs
      · exact ⟨rfl, Or.inl rfl⟩
      · exact ⟨rfl, Or.inr ⟨_, _, rfl, rfl, Or.inr (Or.inr rfl)⟩⟩
    by_cases h_susp : s.suspend_kr = KERN_SUCCESS
    swap
    · rw [wait_suspend_failed port_set t1 nonblocking s rest h_rcv h_id h_susp,
        wait_suspend_failed port_set t2 nonblocking s rest h_rcv h_id h_susp]
      exact ⟨rfl, Or.inl rfl⟩
    by_cases h_reply : s.reply_kr = MACH_MSG_SUCCESS
    swap
    · rw [wait_reply_failed port_set t1 nonblocking s rest h_rcv h_id h_susp h_reply,
        wait_reply_failed port_set t2 nonblocking s rest h_rcv h_id h_susp h_reply]
      exact ⟨rfl, Or.inl rfl⟩
    by_cases h_drop : soft_signal_not_trap s.msg
    swap
    · rw [wait_stop port_set t1 nonblocking s rest h_rcv h_id h_susp h_reply h_drop,
        wait_stop port_set t2 nonblocking s rest h_rcv h_id h_susp h_reply h_drop]
      exact ⟨rfl, Or.inl rfl⟩
    by_cases h_resume : s.resume_kr = KERN_SUCCESS
    · rw [wait_filter port_set t1 nonblocking s rest h_rcv h_id h_susp h_reply h_drop h_resume,
        wait_filter port_set t2 nonblocking s rest h_rcv h_id h_susp h_reply h_drop h_resume]
      exact ⟨rfl, Or.inl rfl⟩
    · rw [wait_resume_failed port_set t1 nonblocking s rest h_rcv h_id h_susp h_reply h_drop
          h_resume,
        wait_resume_failed port_set t2 nonblocking s rest h_rcv h_id h_susp h_reply h_drop
          h_resume]
      exact ⟨rfl, Or.inl rfl⟩

/-- C3 (as stated) fails on the task output.  A filtered `SIGSEGV` exception followed by
an interrupted receive: the call returns `MACH_RCV_INTERRUPTED` with the task output
holding the task name of the filtered message (`0x1203`), while the call on the rest of
the sequence returns the same value and leaves the task output as it was (0).  The same
with nothing following and a receive that times out. -/
theorem C3_task_output_of_filtered_event :
    (mach_port_wait 0x1703 0 0 [segv_step, interrupted_step]).result =
        some ⟨0x10004005, 0x1203, .interrupted⟩ ∧
      (mach_port_wait 0x1703 0 0 [interrupted_step]).result =
        some ⟨0x10004005, 0, .interrupted⟩ ∧
      (mach_port_wait 0x1703 0 0 [segv_step, interrupted_step]).result ≠
        (mach_port_wait 0x1703 0 0 [interrupted_step]).result ∧
      (mach_port_wait 0x1703 0 1 [segv_step]).result = some ⟨0, 0x1203, .rcv_failed⟩ ∧
      (mach_port_wait 0x1703 0 1 []).result = some ⟨0, 0, .rcv_failed⟩ := by
  decide

/-- C3 (amended): when the first message is an exception-raise message with codes
`EXC_SOFT_SIGNAL` and a signal other than `SIGTRAP`, and `thread_suspend`, the reply send
and `thread_resume` succeed, the embedded thread is suspended, replied for and resumed,
and the call goes on as the wait on the rest of the sequence (same port set, same flag).
Compared with that wait entered with any content `task1` of the task cell, the caller's
included: the further calls are the same, and either the results are equal (value
returned, task output and return path; or neither call returns), or that wait returns
without storing a task (interrupted or failed receive, unknown message id) and then the
value returned and the return path are the same while the task output is the task name
of the filtered message instead of `task1`.  The result always equals that of the wait
on the rest entered with the task cell holding the task name of the filtered message. -/
theorem C3_filtered_signal_rewaits (port_set task : Nat) (nonblocking : Int)
    (s : RcvStep) (rest : List RcvStep)
    (h_rcv : s.rcv_kr = MACH_MSG_SUCCESS) (h_id : (msg_hdr s.msg).msgh_id = 2401)
    (h_code0 : data s.msg 2 = EXC_SOFT_SIGNAL) (h_code1 : data s.msg 3 ≠ SIGTRAP)
    (h_susp : s.suspend_kr = KERN_SUCCESS) (h_reply : s.reply_kr = MACH_MSG_SUCCESS)
    (h_resume : s.resume_kr = KERN_SUCCESS) :
    (mach_port_wait port_set task nonblocking (s :: rest)).result =
        (mach_port_wait port_set (desc_name s.msg 1) nonblocking rest).result ∧
      ∀ task1 : Nat,
        (mach_port_wait port_set task nonblocking (s :: rest)).calls =
            [rcv_call port_set nonblocking, .thread_suspend (desc_name s.msg 0),
              reply_call (msg_hdr s.msg), .thread_resume (desc_name s.msg 0)] ++
            (mach_port_wait port_set task1 nonblocking rest).calls ∧
          (mach_port_wait port_set task nonblocking (s :: rest)).result.map Returned.value =
            (mach_port_wait port_set task1 nonblocking rest).result.map Returned.value ∧
          (mach_port_wait port_set task nonblocking (s :: rest)).result.map Returned.path =
            (mach_port_wait port_set task1 nonblocking rest).result.map Returned.path ∧
          ((mach_port_wait port_set task nonblocking (s :: rest)).result =
              (mach_port_wait port_set task1 nonblocking rest).result ∨
            ∃ v p,
              (mach_port_wait port_set task1 nonblocking rest).result = some ⟨v, task1, p⟩ ∧
              (mach_port_wait port_set task nonblocking (s :: rest)).result =
                some ⟨v, desc_name s.msg 1, p⟩ ∧
              (p = .interrupted ∨ p = .rcv_failed ∨ p = .unknown_id)) := by
  rw [wait_filter port_set task nonblocking s rest h_rcv h_id h_susp h_reply ⟨h_code0, h_code1⟩
    h_resume]
  refine ⟨rfl, fun task1 => ?_⟩
  obtain ⟨h_calls, h_res⟩ :=
    wait_task_independent port_set nonblocking rest (desc_name s.msg 1) task1
  refine ⟨?_, ?_, ?_, ?_⟩
  · show filtered_calls port_set nonblocking s ++ _ = filtered_calls port_set nonblocking s ++ _
    rw [h_calls]
  · rcases h_res with h | ⟨v, p, h1, h2, _⟩
    · simp [h]
    · simp [h1, h2]
  · rcases h_res with h | ⟨v, p, h1, h2, _⟩
    · simp [h]
    · simp [h1, h2]
  · rcases h_res with h | ⟨v, p, h1, h2, hp⟩
    · exact Or.inl h
    · exact Or.inr ⟨v, p, h2, h1, hp⟩

/-- Witness of the amended C3 on a filtered `SIGSEGV` exception followed by a dead-name
notification, against a wait on the notification alone entered with the caller's task
cell (0): same value returned and same return path. -/
theorem C3_filtered_signal_rewaits_witness :
    (mach_port_wait 0x1703 0 0 [segv_step, death_step]).result =
        (mach_port_wait 0x1703 0x1203 0 [death_step]).result ∧
      (mach_port_wait 0x1703 0 0 [segv_step, death_step]).result.map Returned.value =
        (mach_port_wait 0x1703 0 0 [death_step]).result.map Returned.value ∧
      (mach_port_wait 0x1703 0 0 [segv_step, death_step]).result.map Returned.path =
        (mach_port_wait 0x1703 0 0 [death_step]).result.map Returned.path :=
  ⟨(C3_filtered_signal_rewaits 0x1703 0 0 segv_step [death_step] (by decide) (by decide)
      (by decide) (by decide) (by decide) (by decide) (by decide)).1,
    ((C3_filtered_signal_rewaits 0x1703 0 0 segv_step [death_step] (by decide) (by decide)
      (by decide) (by decide) (by decide) (by decide) (by decide)).2 0).2.1,
    ((C3_filtered_signal_rewaits 0x1703 0 0 segv_step [death_step] (by decide) (by decide)
      (by decide) (by decide) (by decide) (by decide) (by decide)).2 0).2.2.1⟩

/-- What `acquire_mach_task` does, by the first failing call: it returns that call's
status, has issued the calls of the plan up to and including it, and the kernel state is
the state on entry with the effects of the calls before it. -/
theorem acquire_mach_task_run (self : Nat) (tid : Int)
    (task port_set exception_port notification_port : Nat) (env : KernelScript)
    (k : KernelState) :
    (acquire_mach_task self tid task port_set exception_port notification_port env k).kret =
        first_failure_code env ∧
      (acquire_mach_task self tid task port_set exception_port notification_port env k).calls =
        ((acquire_plan self tid task port_set exception_port notification_port env).take
          (issued env)).map Prod.fst ∧
      (acquire_mach_task self tid task port_set exception_port notification_port env k).kernel =
        ((acquire_plan self tid task port_set exception_port notification_port env).take
          (succeeded env)).foldl (fun st cv => apply_call cv.1 cv.2 st) k := by
  by_cases h0 : env.kr 0 = KERN_SUCCESS
  swap
  · simp [acquire_mach_task, first_failure_code, issued, succeeded, first_failure, acquire_steps,
      acquire_plan, kernel_after, h0]
  by_cases h1 : env.kr 1 = KERN_SUCCESS
  swap
  · simp [acquire_mach_task, first_failure_code, issued, succeeded, first_failure, acquire_steps,
      acquire_plan, kernel_after, h0, h1]
  by_cases h2 : env.kr 2 = KERN_SUCCESS
  swap
  · simp [acquire_mach_task, first_failure_code, issued, succeeded, first_failure, acquire_steps,
      acquire_plan, kernel_after, h0, h1, h2]
  by_cases h3 : env.kr 3 = KERN_SUCCESS
  swap
  · simp [acquire_mach_task, first_failure_code, issued, succeeded, first_failure, acquire_steps,
      acquire_plan, kernel_after, h0, h1, h2, h3]
  by_cases h4 : env.kr 4 = KERN_SUCCESS
  swap
  · simp [acquire_mach_task, first_failure_code, issued, succeeded, first_failure, acquire_steps,
      acquire_plan, kernel_after, h0, h1, h2, h3, h4]
  by_cases h5 : env.kr 5 = KERN_SUCCESS
  swap
  · simp [acquire_mach_task, first_failure_code, issued, succeeded, first_failure, acquire_steps,
      acquire_plan, kernel_after, h0, h1, h2, h3, h4, h5]
  by_cases h6 : env.kr 6 = KERN_SUCCESS
  swap
  · simp [acquire_mach_task, first_failure_code, issued, succeeded, first_failure, acquire_steps,
      acquire_plan, kernel_after, h0, h1, h2, h3, h4, h5, h6]
  by_cases h7 : env.kr 7 = KERN_SUCCESS
  swap
  · simp [acquire_mach_task, first_failure_code, issued, succeeded, first_failure, acquire_steps,
      acquire_plan, kernel_after, h0, h1, h2, h3, h4, h5, h6, h7]
  by_cases h8 : env.kr 8 = KERN_SUCCESS
  swap
  · simp [acquire_mach_task, first_failure_code, issued, succeeded, first_failure, acquire_steps,
      acquire_plan, kernel_after, h0, h1, h2, h3, h4, h5, h6, h7, h8]
  by_cases h9 : env.kr 9 = KERN_SUCCESS
  swap
  · simp [acquire_mach_task, first_failure_code, issued, succeeded, first_failure, acquire_steps,
      acquire_plan, kernel_after, h0, h1, h2, h3, h4, h5, h6, h7, h8, h9]
  simp [acquire_mach_task, first_failure_code, issued, succeeded, first_failure, acquire_steps,
    acquire_plan, kernel_after, h0, h1, h2, h3, h4, h5, h6, h7, h8, h9]

theorem first_failure_eq_some (env : KernelScript) (i : Nat) (hi : i < 10)
    (h_fail : env.kr i ≠ KERN_SUCCESS) (h_before : ∀ j, j < i → env.kr j = KERN_SUCCESS) :
    first_failure env = some i := by
  interval_cases i <;> simp [first_failure, acquire_steps, h_fail, h_before]

theorem first_failure_eq_none (env : KernelScript)
    (h_all : ∀ i, i < 10 → env.kr i = KERN_SUCCESS) : first_failure env = none := by
  simp [first_failure, acquire_steps, h_all]

theorem first_failure_some_fails (env : KernelScript) (i : Nat)
    (h : first_failure env = some i) : env.kr i ≠ KERN_SUCCESS := by
  have := List.find?_some h
  simpa using this

theorem first_failure_none_all (env : KernelScript) (h : first_failure env = none) :
    ∀ i, i < 10 → env.kr i = KERN_SUCCESS := by
  intro i hi
  have h2 := List.find?_eq_none.mp h i (by
    unfold acquire_steps
    interval_cases i <;> simp)
  simpa using h2

theorem state_size_apply_call (c : KCall) (stored : Nat) (k : KernelState) :
    state_size (apply_call c stored k) = state_size k + 1 := by
  cases c <;> simp [apply_call, state_size] <;> omega

theorem state_size_foldl (l : List (KCall × Nat)) (k : KernelState) :
    state_size (l.foldl (fun st cv => apply_call cv.1 cv.2 st) k) = state_size k + l.length := by
  induction l generalizing k with
  | nil => simp
  | cons a l ih =>
    rw [List.foldl_cons, ih, state_size_apply_call, List.length_cons]
    omega

theorem acquire_plan_length (self : Nat) (tid : Int)
    (task port_set exception_port notification_port : Nat) (env : KernelScript) :
    (acquire_plan self tid task port_set exception_port notification_port env).length = 10 := rfl

/-- C7: `acquire_mach_task` issues its kernel calls in the order of `acquire_plan`
(`task_for_pid`, allocate the exception port, insert a send right on it,
`task_set_exception_ports`, allocate the notification port, insert a send right on it,
request the dead-name notification, allocate the port set, move the exception port into
it, move the notification port into it).  For every assignment of statuses: if call `i`
is the first whose status is not `KERN_SUCCESS`, that status is returned and the calls
issued are exactly the first `i + 1` calls of the plan; `KERN_SUCCESS` is returned exactly
when all ten calls succeed, and then all ten calls were issued. -/
theorem C7_acquire_fail_fast (self : Nat) (tid : Int)
    (task port_set exception_port notification_port : Nat) (env : KernelScript)
    (k : KernelState) :
    (∀ i, i < 10 → env.kr i ≠ KERN_SUCCESS → (∀ j, j < i → env.kr j = KERN_SUCCESS) →
        (acquire_mach_task self tid task port_set exception_port notification_port env k).kret =
            env.kr i ∧
          (acquire_mach_task self tid task port_set exception_port notification_port env k).calls =
            ((acquire_plan self tid task port_set exception_port notification_port env).take
              (i + 1)).map Prod.fst) ∧
      ((acquire_mach_task self tid task port_set exception_port notification_port env k).kret =
          KERN_SUCCESS ↔ ∀ i, i < 10 → env.kr i = KERN_SUCCESS) ∧
      ((∀ i, i < 10 → env.kr i = KERN_SUCCESS) →
        (acquire_mach_task self tid task port_set exception_port notification_port env k).calls =
          (acquire_plan self tid task port_set exception_port notification_port env).map
            Prod.fst) := by
  obtain ⟨h_kret, h_calls, _⟩ :=
    acquire_mach_task_run self tid task port_set exception_port notification_port env k
  refine ⟨?_, ?_, ?_⟩
  · intro i hi h_fail h_before
    have hf := first_failure_eq_some env i hi h_fail h_before
    rw [h_kret, h_calls]
    simp [first_failure_code, issued, hf]
  · rw [h_kret]
    constructor
    · intro h
      cases hf : first_failure env with
      | none => exact first_failure_none_all env hf
      | some i =>
        exfalso
        apply first_failure_some_fails env i hf
        simpa [first_failure_code, hf] using h
    · intro h_all
      simp [first_failure_code, first_failure_eq_none env h_all]
  · intro h_all
    rw [h_calls]
    have hf := first_failure_eq_none env h_all
    have hl := acquire_plan_length self tid task port_set exception_port notification_port env
    simp only [issued, hf]
    rw [← hl, List.take_length]

/-- Witness of C7: the insert of the send right on the exception port (call 2) fails with
`KERN_FAILURE` (5); 5 is returned after exactly three calls. -/
theorem C7_acquire_fail_fast_witness :
    (acquire_mach_task 0x103 4242 0 0 0 0 insert_right_fails empty_kernel).kret = 5 ∧
      (acquire_mach_task 0x103 4242 0 0 0 0 insert_right_fails empty_kernel).calls =
        [.task_for_pid 0x103 4242, .mach_port_allocate 0x103 MACH_PORT_RIGHT_RECEIVE,
          .mach_port_insert_right 0x103 0x1503 0x1503 MACH_MSG_TYPE_MAKE_SEND] :=
  (C7_acquire_fail_fast 0x103 4242 0 0 0 0 insert_right_fails empty_kernel).1 2 (by decide)
    (by decide) (by decide)

/-- C8 (as stated) fails: when `mach_port_insert_right` on the exception port fails,
`acquire_mach_task` returns that error and the task port obtained by `task_for_pid` and
the exception port allocated before are still there. -/
theorem C8_partial_setup_remains :
    (acquire_mach_task 0x103 4242 0 0 0 0 insert_right_fails empty_kernel).kret = 5 ∧
      (acquire_mach_task 0x103 4242 0 0 0 0 insert_right_fails empty_kernel).kernel =
        { empty_kernel with
          task_ports := [(4242, 0x1203)]
          ports := [(0x1503, MACH_PORT_RIGHT_RECEIVE)] } ∧
      (acquire_mach_task 0x103 4242 0 0 0 0 insert_right_fails empty_kernel).kernel ≠
        empty_kernel := by
  decide

/-- C8 (amended): `acquire_mach_task` is fail-fast without rollback.  When it returns the
error of call `i`, the first failing call, the kernel state is the state on entry with
the effects of the `i` calls before it, all still in effect (`i` more entries than on
entry), and nothing of the calls after it; the state equals the state on entry only when
the failing call is the first one, `task_for_pid`. -/
theorem C8_no_rollback (self : Nat) (tid : Int)
    (task port_set exception_port notification_port : Nat) (env : KernelScript)
    (k : KernelState) (i : Nat) (hi : i < 10) (h_fail : env.kr i ≠ KERN_SUCCESS)
    (h_before : ∀ j, j < i → env.kr j = KERN_SUCCESS) :
    (acquire_mach_task self tid task port_set exception_port notification_port env k).kret =
        env.kr i ∧
      (acquire_mach_task self tid task port_set exception_port notification_port env k).kernel =
        ((acquire_plan self tid task port_set exception_port notification_port env).take
          i).foldl (fun st cv => apply_call cv.1 cv.2 st) k ∧
      state_size
          (acquire_mach_task self tid task port_set exception_port notification_port env k).kernel =
        state_size k + i ∧
      ((acquire_mach_task self tid task port_set exception_port notification_port env k).kernel =
        k ↔ i = 0) := by
  obtain ⟨h_kret, _, h_kernel⟩ :=
    acquire_mach_task_run self tid task port_set exception_port notification_port env k
  have hf := first_failure_eq_some env i hi h_fail h_before
  have hk : (acquire_mach_task self tid task port_set exception_port notification_port env
      k).kernel =
      ((acquire_plan self tid task port_set exception_port notification_port env).take
        i).foldl (fun st cv => apply_call cv.1 cv.2 st) k := by
    rw [h_kernel]
    simp [succeeded, hf]
  have hs : state_size
      (acquire_mach_task self tid task port_set exception_port notification_port env k).kernel =
      state_size k + i := by
    rw [hk, state_size_foldl, List.length_take, acquire_plan_length]
    omega
  refine ⟨?_, hk, hs, ?_⟩
  · rw [h_kret]
    simp [first_failure_code, hf]
  · constructor
    · intro h
      rw [h] at hs
      omega
    · intro h
      rw [hk, h]
      rfl

/-- Witness of the amended C8: the insert of the send right on the exception port (call
2) fails; two entries remain. -/
theorem C8_no_rollback_witness :
    state_size (acquire_mach_task 0x103 4242 0 0 0 0 insert_right_fails empty_kernel).kernel =
      state_size empty_kernel + 2 :=
  (C8_no_rollback 0x103 4242 0 0 0 0 insert_right_fails empty_kernel 2 (by decide) (by decide)
    (by decide)).2.2.1

/-! ## Thread enumeration: claims -/

/-- For a capacity that is not negative and is smaller than the thread count,
`get_threads` returns -2 and leaves the memory at `slice` as it was. -/
theorem get_threads_too_small (list : List Nat) (dealloc_kr : Int) (slice : List Nat)
    (limit : Int) (h_count : list.length < 2 ^ 32) (h_nonneg : 0 ≤ limit)
    (h_small : limit < list.length) :
    get_threads KERN_SUCCESS list dealloc_kr slice limit = (-2, slice) := by
  have h1 : list.length % 2 ^ 32 = list.length := Nat.mod_eq_of_lt h_count
  have h2 : uint32_of_int limit < list.length := by
    unfold uint32_of_int
    have : limit % 2 ^ 32 = limit := Int.emod_eq_of_lt h_nonneg (by omega)
    rw [this]
    omega
  unfold get_threads
  simp only [ne_eq, not_true_eq_false, if_false, h1, gt_iff_lt, h2, if_true]

/-- C5 fails on the code for a negative capacity: with `limit = -1` and a task of one
thread (so the capacity is smaller than the count), `get_threads` returns 0 and has
copied the thread into the memory at `slice`, because the comparison `count > limit` is
made on `unsigned int`, where -1 is `0xffffffff`. -/
theorem C5_negative_limit_copies :
    ((-1 : Int) < ([0x2003] : List Nat).length) ∧
      uint32_of_int (-1) = 0xffffffff ∧
      get_threads KERN_SUCCESS [0x2003] KERN_SUCCESS [0, 0] (-1) = (0, [0x2003, 0]) ∧
      get_threads KERN_SUCCESS [0x2003] KERN_SUCCESS [0, 0] (-1) ≠ (-2, [0, 0]) := by
  decide

end ProcDarwin
